import Mathlib

/-!
Verification development for the `lorenz_gan` experiment driver
(`train_lorenz_gan.py`).  The driver orchestrates: run the two-scale
Lorenz 96 truth model, trim the trajectory with `[burn_in::skip]`
slicing, build a flat feature table, normalize, trim to a multiple of
the batch size and hand the arrays to the external GAN trainer.

The integrator, feature builder and normalizer live in the
`lorenz_gan.lorenz` / `lorenz_gan.gan` modules, which are not part of
the sources under verification; those pieces are modelled from the
design document (each such definition carries a doc comment starting
with `Modelled from the spec:`).  Everything else is a direct shallow
embedding of `train_lorenz_gan.py`, with machine floats replaced by
exact rationals.
-/

namespace LorenzGan

/-! ## Python slice semantics

`pySlice l b s` models the Python expression `l[b::s]` for a stride
`s ≥ 1`: the elements at indices `b, b+s, b+2s, ...`. -/

/-- All elements of `l` at indices `0, s, 2*s, ...` (for `s ≥ 1`);
the recursion keeps the head and drops the next `s - 1` elements. -/
def strided : List α → Nat → List α
  | [], _ => []
  | a :: l, s => a :: strided (l.drop (s - 1)) s
termination_by l _ => l.length
decreasing_by
  simp only [List.length_drop, List.length_cons]
  omega

theorem strided_nil (s : Nat) : strided ([] : List α) s = [] := by
  simp [strided]

theorem strided_cons (a : α) (l : List α) (s : Nat) :
    strided (a :: l) s = a :: strided (l.drop (s - 1)) s := by
  simp [strided]

/-- Element `f` of the strided list is element `f * s` of the original. -/
theorem strided_getElem (s : Nat) (hs : 1 ≤ s) :
    ∀ (f : Nat) (l : List α), (strided l s)[f]? = l[f * s]? := by
  intro f
  induction f with
  | zero =>
    intro l
    cases l with
    | nil => simp [strided_nil]
    | cons a t => simp [strided_cons]
  | succ f ih =>
    intro l
    cases l with
    | nil => simp [strided_nil]
    | cons a t =>
      rw [strided_cons, List.getElem?_cons_succ, ih, List.getElem?_drop]
      have h1 : (f + 1) * s = (s - 1 + f * s) + 1 := by
        have h2 : (f + 1) * s = f * s + s := by rw [Nat.succ_mul]
        omega
      rw [h1, List.getElem?_cons_succ]

/-- The strided list has `ceil(length / s)` elements. -/
theorem strided_length (s : Nat) (hs : 1 ≤ s) :
    ∀ l : List α, (strided l s).length = (l.length + s - 1) / s := by
  have H : ∀ (n : Nat) (l : List α), l.length ≤ n →
      (strided l s).length = (l.length + s - 1) / s := by
    intro n
    induction n with
    | zero =>
      intro l hl
      have hnil : l = [] := List.eq_nil_of_length_eq_zero (Nat.le_zero.mp hl)
      subst hnil
      simp only [strided_nil, List.length_nil, Nat.zero_add]
      rw [Nat.div_eq_of_lt (by omega)]
    | succ n ih =>
      intro l hl
      cases l with
      | nil =>
        simp only [strided_nil, List.length_nil, Nat.zero_add]
        rw [Nat.div_eq_of_lt (by omega)]
      | cons a t =>
        rw [strided_cons]
        simp only [List.length_cons]
        rw [ih (t.drop (s - 1)) (by simp only [List.length_drop]; simp at hl; omega)]
        simp only [List.length_drop]
        have hr : t.length + 1 + s - 1 = t.length + s := by omega
        rw [hr, Nat.add_div_right _ (by omega : 0 < s)]
        by_cases hm : s - 1 ≤ t.length
        · have hleft : t.length - (s - 1) + s - 1 = t.length := by omega
          rw [hleft]
        · have h0 : t.length - (s - 1) = 0 := by omega
          rw [h0]
          rw [Nat.div_eq_of_lt (by omega), Nat.div_eq_of_lt (by omega)]
  intro l
  exact H l.length l le_rfl

/-- The Python slice `l[b::s]`. -/
def pySlice (l : List α) (b s : Nat) : List α := strided (l.drop b) s

/-- Element `f` of `l[b::s]` is element `b + f * s` of `l`. -/
theorem pySlice_getElem (l : List α) (b s f : Nat) (hs : 1 ≤ s) :
    (pySlice l b s)[f]? = l[b + f * s]? := by
  unfold pySlice
  rw [strided_getElem s hs f, List.getElem?_drop]

/-- `l[b::s]` has `ceil((length - b) / s)` elements. -/
theorem pySlice_length (l : List α) (b s : Nat) (hs : 1 ≤ s) :
    (pySlice l b s).length = (l.length - b + s - 1) / s := by
  unfold pySlice
  rw [strided_length s hs, List.length_drop]

/-! ## Data model -/

deriving instance DecidableEq for Except

/-- Errors of the pipeline, following the taxonomy of the design
document (InvalidParameters, IOFailure). -/
inductive PipelineError where
  | invalidParameters
  | ioFailure
deriving DecidableEq

/-- The `lorenz:` subsection of the configuration file, as read by
`train_lorenz_gan.py` (fields `K, J, h, b, c, F, time_step, num_steps,
skip, burn_in`); reals are modelled as exact rationals. -/
structure LorenzConfig where
  K : Nat
  J : Nat
  h : ℚ
  b : ℚ
  c : ℚ
  F : ℚ
  time_step : ℚ
  num_steps : Nat
  skip : Nat
  burn_in : Nat

/-! ## The Lorenz 96 truth model

`run_lorenz96_truth` is imported from `lorenz_gan.lorenz`, which is not
among the sources under verification, so the integrator below is
modelled from the spec (two-scale Lorenz 96 update rule, fixed-step
explicit scheme, one recorded frame per raw step since the driver
itself applies the `skip`/`burn_in` slicing, physical time
`step_index * time_step` with steps 1-indexed, InvalidParameters
fail-fast validation). -/

/-- Cyclic list access: element `i mod length` (0 for the empty list). -/
def getc (l : List ℚ) (i : Int) : ℚ :=
  l.getD (i % (l.length : Int)).toNat 0

/-- Modelled from the spec: slow-variable tendency
`dX[i]/dt = -X[i-1]*(X[i-2]-X[i+1]) - X[i] + F - (h*c/b) * sum_j Y[i*J+j]`
with slow indices cyclic in `K`. -/
def dXdt (X Y : List ℚ) (J : Nat) (h F b c : ℚ) (i : Nat) : ℚ :=
  -(getc X ((i : Int) - 1)) * (getc X ((i : Int) - 2) - getc X ((i : Int) + 1))
    - getc X (i : Int) + F
    - (h * c / b) * ((List.range J).map (fun j => getc Y ((i * J + j : Nat) : Int))).sum

/-- Modelled from the spec: fast-variable tendency
`dY[n]/dt = -c*b*Y[n+1]*(Y[n+2]-Y[n-1]) - c*Y[n] + (h*c/b)*X[n div J]`
with fast indices cyclic in the whole `Y` array. -/
def dYdt (X Y : List ℚ) (J : Nat) (h F b c : ℚ) (n : Nat) : ℚ :=
  -c * b * getc Y ((n : Int) + 1) * (getc Y ((n : Int) + 2) - getc Y ((n : Int) - 1))
    - c * getc Y (n : Int) + (h * c / b) * getc X ((n / J : Nat) : Int)

/-- Modelled from the spec: one fixed-size explicit (Euler) step of the
coupled two-scale system. -/
def eulerStep (J : Nat) (h F b c dt : ℚ) (X Y : List ℚ) : List ℚ × List ℚ :=
  ((List.range X.length).map (fun i => X.getD i 0 + dt * dXdt X Y J h F b c i),
   (List.range Y.length).map (fun n => Y.getD n 0 + dt * dYdt X Y J h F b c n))

/-- Modelled from the spec: the recorded state after each of the next
`n` integration steps, most recent last. -/
def integrateAux (J : Nat) (h F b c dt : ℚ) : Nat → List ℚ × List ℚ → List (List ℚ × List ℚ)
  | 0, _ => []
  | Nat.succ n, s =>
    eulerStep J h F b c dt s.1 s.2 ::
      integrateAux J h F b c dt n (eulerStep J h F b c dt s.1 s.2)

theorem integrateAux_length (J : Nat) (h F b c dt : ℚ) :
    ∀ (n : Nat) (s : List ℚ × List ℚ), (integrateAux J h F b c dt n s).length = n := by
  intro n
  induction n with
  | zero => intro s; simp [integrateAux]
  | succ n ih => intro s; simp [integrateAux, ih]

/-- Modelled from the spec: `run_lorenz96_truth` from
`lorenz_gan.lorenz` (not under the verified sources).  Validates the
parameters (fail fast with InvalidParameters), then integrates
`num_steps` fixed-size steps recording every step: `X_out`, `Y_out`,
physical times `step_index * time_step` and the 1-indexed step indices.
`J` is recovered from the state sizes as in the source call convention,
where only the state vectors are passed. -/
def run_lorenz96_truth (X Y : List ℚ) (h F b c dt : ℚ) (num_steps : Nat) :
    Except PipelineError (List (List ℚ) × List (List ℚ) × List ℚ × List Nat) :=
  if X.length < 1 ∨ Y.length / X.length < 1 ∨ dt ≤ 0 ∨ num_steps < 1 then
    Except.error PipelineError.invalidParameters
  else
    Except.ok
      ((integrateAux (Y.length / X.length) h F b c dt num_steps (X, Y)).map Prod.fst,
       (integrateAux (Y.length / X.length) h F b c dt num_steps (X, Y)).map Prod.snd,
       (List.range num_steps).map (fun n : Nat => ((n : ℚ) + 1) * dt),
       (List.range num_steps).map (fun n => n + 1))

theorem run_ok_lengths (X Y : List ℚ) (h F b c dt : ℚ) (ns : Nat)
    (A B : List (List ℚ)) (T : List ℚ) (S : List Nat)
    (hrun : run_lorenz96_truth X Y h F b c dt ns = Except.ok (A, B, T, S)) :
    A.length = ns ∧ B.length = ns ∧ T.length = ns ∧ S.length = ns := by
  unfold run_lorenz96_truth at hrun
  split at hrun
  · exact absurd hrun (by simp)
  · simp only [Except.ok.injEq, Prod.mk.injEq] at hrun
    obtain ⟨hA, hB, hT, hS⟩ := hrun
    subst hA hB hT hS
    refine ⟨?_, ?_, ?_, ?_⟩ <;>
      simp only [List.length_map, List.length_range, integrateAux_length]

theorem run_invalid (X Y : List ℚ) (h F b c dt : ℚ) (ns : Nat)
    (hcond : X.length < 1 ∨ Y.length / X.length < 1 ∨ dt ≤ 0 ∨ ns < 1) :
    run_lorenz96_truth X Y h F b c dt ns = Except.error PipelineError.invalidParameters := by
  unfold run_lorenz96_truth
  rw [if_pos hcond]

/-! ## generate_lorenz_data (from the source) -/

/-- The initial slow state of `generate_lorenz_data`:
`X = np.zeros(K); X[0] = 1` (source lines 97 and 99). -/
def init_X (K : Nat) : List ℚ := (List.replicate K 0).set 0 1

/-- The initial fast state of `generate_lorenz_data`:
`Y = np.zeros(J * K); Y[0] = 1` (source lines 98 and 100). -/
def init_Y (K J : Nat) : List ℚ := (List.replicate (J * K) 0).set 0 1

theorem init_X_length (K : Nat) : (init_X K).length = K := by
  simp [init_X]

theorem init_Y_length (K J : Nat) : (init_Y K J).length = J * K := by
  simp [init_Y]

/-- `generate_lorenz_data` from `train_lorenz_gan.py` (lines 87-105):
build the hard-coded initial state, run the truth model, and slice all
four outputs with `[burn_in::skip]`. -/
def generate_lorenz_data (cfg : LorenzConfig) :
    Except PipelineError (List (List ℚ) × List (List ℚ) × List ℚ × List Nat) :=
  match run_lorenz96_truth (init_X cfg.K) (init_Y cfg.K cfg.J)
      cfg.h cfg.F cfg.b cfg.c cfg.time_step cfg.num_steps with
  | Except.error e => Except.error e
  | Except.ok (Xo, Yo, T, S) =>
      Except.ok (pySlice Xo cfg.burn_in cfg.skip, pySlice Yo cfg.burn_in cfg.skip,
                 pySlice T cfg.burn_in cfg.skip, pySlice S cfg.burn_in cfg.skip)

/-- Validity of the physical parameters, following the data-model
section of the design document. -/
def validParams (cfg : LorenzConfig) : Prop :=
  1 ≤ cfg.K ∧ 1 ≤ cfg.J ∧ 0 < cfg.time_step ∧ 1 ≤ cfg.num_steps ∧ 1 ≤ cfg.skip

instance (cfg : LorenzConfig) : Decidable (validParams cfg) := by
  unfold validParams
  infer_instance

/-- The number of recorded frames handed to feature building. -/
def frameCount (cfg : LorenzConfig) : Nat :=
  match generate_lorenz_data cfg with
  | Except.ok (Xo, _, _, _) => Xo.length
  | Except.error _ => 0

theorem generate_ok_of_valid (cfg : LorenzConfig) (hv : validParams cfg) :
    run_lorenz96_truth (init_X cfg.K) (init_Y cfg.K cfg.J)
        cfg.h cfg.F cfg.b cfg.c cfg.time_step cfg.num_steps =
      Except.ok
        ((integrateAux cfg.J cfg.h cfg.F cfg.b cfg.c cfg.time_step cfg.num_steps
            (init_X cfg.K, init_Y cfg.K cfg.J)).map Prod.fst,
         (integrateAux cfg.J cfg.h cfg.F cfg.b cfg.c cfg.time_step cfg.num_steps
            (init_X cfg.K, init_Y cfg.K cfg.J)).map Prod.snd,
         (List.range cfg.num_steps).map (fun n : Nat => ((n : ℚ) + 1) * cfg.time_step),
         (List.range cfg.num_steps).map (fun n => n + 1)) := by
  obtain ⟨hK, hJ, ht, hn, hs⟩ := hv
  have hXlen : (init_X cfg.K).length = cfg.K := init_X_length cfg.K
  have hYlen : (init_Y cfg.K cfg.J).length = cfg.J * cfg.K := init_Y_length cfg.K cfg.J
  have hdiv : (init_Y cfg.K cfg.J).length / (init_X cfg.K).length = cfg.J := by
    rw [hXlen, hYlen, Nat.mul_div_cancel _ (by omega)]
  unfold run_lorenz96_truth
  rw [if_neg]
  · rw [hdiv]
  · push_neg
    refine ⟨by omega, by omega, by exact ht, by omega⟩

/-- With valid parameters every trimmed output of
`generate_lorenz_data` has `ceil((num_steps - burn_in) / skip)` frames. -/
theorem frameCount_eq (cfg : LorenzConfig) (hv : validParams cfg) :
    frameCount cfg = (cfg.num_steps - cfg.burn_in + cfg.skip - 1) / cfg.skip := by
  have hs : 1 ≤ cfg.skip := hv.2.2.2.2
  unfold frameCount generate_lorenz_data
  rw [generate_ok_of_valid cfg hv]
  simp only
  rw [pySlice_length _ _ _ hs]
  simp [integrateAux_length]

/-! ## Claim theorems about the data-generation stage

Configuration literals used below list the fields in declaration
order: `K J h b c F time_step num_steps skip burn_in`. -/

/-- The scenario configuration of the spec:
`K=4, J=2, num_steps=100, skip=2, burn_in=5`. -/
def scenarioConfig : LorenzConfig := LorenzConfig.mk 4 2 1 10 10 20 1 100 2 5

/-- A small valid configuration: `K=1, J=1, num_steps=4, skip=2, burn_in=1`. -/
def cfgSmall : LorenzConfig := LorenzConfig.mk 1 1 1 1 1 1 1 4 2 1

/-- An invalid configuration with `K = 0`. -/
def cfgInvalid : LorenzConfig := LorenzConfig.mk 0 1 1 10 10 20 1 5 2 0

/-- A minimal valid configuration: every count 1, `burn_in = 0`. -/
def cfgTiny : LorenzConfig := LorenzConfig.mk 1 1 1 1 1 1 1 1 1 0

/-- C1 counterexample: the code slices `X_out[burn_in::skip]`, applying
`burn_in` to the raw per-step series before the `skip` subsampling, so
the scenario `K=4, J=2, num_steps=100, skip=2, burn_in=5` records
`ceil((100-5)/2) = 48` frames, not `floor(100/2) - 5 = 45` as claimed. -/
theorem c1_counterexample :
    frameCount scenarioConfig = 48 ∧
    scenarioConfig.num_steps / scenarioConfig.skip - scenarioConfig.burn_in = 45 ∧
    frameCount scenarioConfig ≠ 45 := by
  have h := frameCount_eq scenarioConfig (by decide)
  refine ⟨?_, by decide, ?_⟩
  · rw [h]; decide
  · rw [h]; decide

/-- C1 (amended): for every valid configuration the pipeline first
discards the first `burn_in` raw frames and then subsamples by `skip`,
so the number of recorded frames handed to feature building equals
`ceil((num_steps - burn_in) / skip)`. -/
theorem c1_amended_count (cfg : LorenzConfig)
    (hK : 1 ≤ cfg.K) (hJ : 1 ≤ cfg.J) (ht : 0 < cfg.time_step)
    (hn : 1 ≤ cfg.num_steps) (hs : 1 ≤ cfg.skip)
    (hb : cfg.burn_in < cfg.num_steps / cfg.skip) :
    frameCount cfg = (cfg.num_steps - cfg.burn_in + cfg.skip - 1) / cfg.skip :=
  frameCount_eq cfg ⟨hK, hJ, ht, hn, hs⟩

/-- Witness for the amended C1 at `cfgSmall`. -/
theorem c1_amended_count_witness :
    (1 ≤ cfgSmall.K ∧ 1 ≤ cfgSmall.J ∧ 0 < cfgSmall.time_step ∧
      1 ≤ cfgSmall.num_steps ∧ 1 ≤ cfgSmall.skip ∧
      cfgSmall.burn_in < cfgSmall.num_steps / cfgSmall.skip) ∧
    frameCount cfgSmall =
      (cfgSmall.num_steps - cfgSmall.burn_in + cfgSmall.skip - 1) / cfgSmall.skip :=
  ⟨by decide,
   c1_amended_count cfgSmall (by decide) (by decide) (by decide) (by decide)
     (by decide) (by decide)⟩

/-- C6: any configuration with `K < 1`, `J < 1`, `time_step <= 0` or
`num_steps < 1` makes the data-generation stage fail fast with
InvalidParameters before any integration step is produced (the
validation itself lives in the spec-modelled integrator). -/
theorem c6_validation (cfg : LorenzConfig)
    (hbad : cfg.K < 1 ∨ cfg.J < 1 ∨ cfg.time_step ≤ 0 ∨ cfg.num_steps < 1) :
    generate_lorenz_data cfg = Except.error PipelineError.invalidParameters := by
  have hrun : run_lorenz96_truth (init_X cfg.K) (init_Y cfg.K cfg.J)
      cfg.h cfg.F cfg.b cfg.c cfg.time_step cfg.num_steps =
      Except.error PipelineError.invalidParameters := by
    apply run_invalid
    rcases hbad with hK | hJ | ht | hn
    · left; rw [init_X_length]; exact hK
    · by_cases hK1 : cfg.K < 1
      · left; rw [init_X_length]; exact hK1
      · right; left
        rw [init_X_length, init_Y_length, Nat.mul_div_cancel _ (by omega)]
        exact hJ
    · right; right; left; exact ht
    · right; right; right; exact hn
  unfold generate_lorenz_data
  rw [hrun]

/-- Witness for C6 at the invalid configuration with `K = 0`. -/
theorem c6_validation_witness :
    cfgInvalid.K < 1 ∧
    generate_lorenz_data cfgInvalid = Except.error PipelineError.invalidParameters :=
  ⟨by decide, c6_validation cfgInvalid (Or.inl (by decide))⟩

/-- C8: the data-generation stage is a deterministic function of the
configuration alone; two runs with identical valid configurations
produce identical trajectory outputs. -/
theorem c8_determinism (c1 c2 : LorenzConfig) (hv : validParams c1) (heq : c1 = c2) :
    generate_lorenz_data c1 = generate_lorenz_data c2 := by
  rw [heq]

/-- Witness for C8 at the minimal valid configuration. -/
theorem c8_determinism_witness :
    validParams cfgTiny ∧ generate_lorenz_data cfgTiny = generate_lorenz_data cfgTiny :=
  ⟨by decide, c8_determinism cfgTiny cfgTiny (by decide) rfl⟩

/-- C9: the simulation always starts from the hard-coded state
`X = zeros(K)` with `X[0] = 1` and `Y = zeros(J*K)` with `Y[0] = 1`,
and that initial state depends on nothing in the configuration
besides `K` and `J`. -/
theorem c9_initial_state (K J : Nat) (hK : 1 ≤ K) (hJ : 1 ≤ J) :
    (init_X K).length = K ∧ (init_X K)[0]? = some 1 ∧
    (∀ i, 1 ≤ i → i < K → (init_X K)[i]? = some 0) ∧
    (init_Y K J).length = K * J ∧ (init_Y K J)[0]? = some 1 ∧
    (∀ n, 1 ≤ n → n < K * J → (init_Y K J)[n]? = some 0) ∧
    (∀ c1 c2 : LorenzConfig, c1.K = c2.K → c1.J = c2.J →
      init_X c1.K = init_X c2.K ∧ init_Y c1.K c1.J = init_Y c2.K c2.J) := by
  obtain ⟨k, rfl⟩ : ∃ k, K = k + 1 := ⟨K - 1, by omega⟩
  have hY1 : ∃ m, J * (k + 1) = m + 1 := ⟨J * (k + 1) - 1, by
    have : 0 < J * (k + 1) := Nat.mul_pos (by omega) (by omega)
    omega⟩
  obtain ⟨m, hm⟩ := hY1
  refine ⟨init_X_length _, ?_, ?_, ?_, ?_, ?_, ?_⟩
  · simp [init_X, List.replicate_succ]
  · intro i h1 h2
    obtain ⟨j, rfl⟩ : ∃ j, i = j + 1 := ⟨i - 1, by omega⟩
    simp only [init_X, List.replicate_succ, List.set_cons_succ, List.set_nil,
      List.set_cons_zero, List.getElem?_cons_succ]
    rw [List.getElem?_replicate]
    rw [if_pos (by omega)]
  · rw [init_Y_length, Nat.mul_comm]
  · unfold init_Y
    rw [hm]
    simp [List.replicate_succ]
  · intro n h1 h2
    obtain ⟨j, rfl⟩ : ∃ j, n = j + 1 := ⟨n - 1, by omega⟩
    have hcomm : (k + 1) * J = J * (k + 1) := Nat.mul_comm _ _
    unfold init_Y
    rw [hm]
    simp only [List.replicate_succ, List.set_cons_zero, List.getElem?_cons_succ]
    rw [List.getElem?_replicate]
    rw [if_pos (by omega)]
  · intro c1 c2 hc1 hc2
    rw [hc1, hc2]
    exact ⟨rfl, rfl⟩

/-- Witness for C9 at `K = 2`, `J = 3`. -/
theorem c9_initial_state_witness :
    ((1:Nat) ≤ 2 ∧ (1:Nat) ≤ 3) ∧
    ((init_X 2).length = 2 ∧ (init_X 2)[0]? = some 1 ∧
    (∀ i, 1 ≤ i → i < 2 → (init_X 2)[i]? = some 0) ∧
    (init_Y 2 3).length = 2 * 3 ∧ (init_Y 2 3)[0]? = some 1 ∧
    (∀ n, 1 ≤ n → n < 2 * 3 → (init_Y 2 3)[n]? = some 0) ∧
    (∀ c1 c2 : LorenzConfig, c1.K = c2.K → c1.J = c2.J →
      init_X c1.K = init_X c2.K ∧ init_Y c1.K c1.J = init_Y c2.K c2.J)) :=
  ⟨by decide, c9_initial_state 2 3 (by decide) (by decide)⟩

/-- C10: the burn-in/skip trim applies the same index selection to all
four returned sequences: they have equal lengths, and the frame at
position `f` of each one is the raw frame at index
`burn_in + f * skip` of the corresponding integrator output. -/
theorem c10_alignment (cfg : LorenzConfig) (rawX rawY : List (List ℚ)) (rawT : List ℚ)
    (rawS : List Nat) (hs : 1 ≤ cfg.skip)
    (hrun : run_lorenz96_truth (init_X cfg.K) (init_Y cfg.K cfg.J)
        cfg.h cfg.F cfg.b cfg.c cfg.time_step cfg.num_steps =
          Except.ok (rawX, rawY, rawT, rawS)) :
    generate_lorenz_data cfg =
      Except.ok (pySlice rawX cfg.burn_in cfg.skip, pySlice rawY cfg.burn_in cfg.skip,
                 pySlice rawT cfg.burn_in cfg.skip, pySlice rawS cfg.burn_in cfg.skip) ∧
    (pySlice rawX cfg.burn_in cfg.skip).length = (pySlice rawY cfg.burn_in cfg.skip).length ∧
    (pySlice rawY cfg.burn_in cfg.skip).length = (pySlice rawT cfg.burn_in cfg.skip).length ∧
    (pySlice rawT cfg.burn_in cfg.skip).length = (pySlice rawS cfg.burn_in cfg.skip).length ∧
    ∀ f : Nat,
      (pySlice rawX cfg.burn_in cfg.skip)[f]? = rawX[cfg.burn_in + f * cfg.skip]? ∧
      (pySlice rawY cfg.burn_in cfg.skip)[f]? = rawY[cfg.burn_in + f * cfg.skip]? ∧
      (pySlice rawT cfg.burn_in cfg.skip)[f]? = rawT[cfg.burn_in + f * cfg.skip]? ∧
      (pySlice rawS cfg.burn_in cfg.skip)[f]? = rawS[cfg.burn_in + f * cfg.skip]? := by
  obtain ⟨hX, hY, hT, hS⟩ :=
    run_ok_lengths (init_X cfg.K) (init_Y cfg.K cfg.J) cfg.h cfg.F cfg.b cfg.c
      cfg.time_step cfg.num_steps rawX rawY rawT rawS hrun
  refine ⟨?_, ?_, ?_, ?_, ?_⟩
  · unfold generate_lorenz_data
    rw [hrun]
  · rw [pySlice_length _ _ _ hs, pySlice_length _ _ _ hs, hX, hY]
  · rw [pySlice_length _ _ _ hs, pySlice_length _ _ _ hs, hY, hT]
  · rw [pySlice_length _ _ _ hs, pySlice_length _ _ _ hs, hT, hS]
  · intro f
    exact ⟨pySlice_getElem _ _ _ _ hs, pySlice_getElem _ _ _ _ hs,
           pySlice_getElem _ _ _ _ hs, pySlice_getElem _ _ _ _ hs⟩

/-- Witness for C10 at the minimal valid configuration, whose single
integration step yields `X_out=[[0]], Y_out=[[1]], times=[1], steps=[1]`. -/
theorem c10_alignment_witness :
    (1 ≤ cfgTiny.skip) ∧
    run_lorenz96_truth (init_X cfgTiny.K) (init_Y cfgTiny.K cfgTiny.J)
      cfgTiny.h cfgTiny.F cfgTiny.b cfgTiny.c cfgTiny.time_step cfgTiny.num_steps =
        Except.ok ([[(0:ℚ)]], [[(1:ℚ)]], [(1:ℚ)], [1]) ∧
    (generate_lorenz_data cfgTiny =
      Except.ok (pySlice [[(0:ℚ)]] cfgTiny.burn_in cfgTiny.skip,
                 pySlice [[(1:ℚ)]] cfgTiny.burn_in cfgTiny.skip,
                 pySlice [(1:ℚ)] cfgTiny.burn_in cfgTiny.skip,
                 pySlice [1] cfgTiny.burn_in cfgTiny.skip) ∧
    (pySlice [[(0:ℚ)]] cfgTiny.burn_in cfgTiny.skip).length =
      (pySlice [[(1:ℚ)]] cfgTiny.burn_in cfgTiny.skip).length ∧
    (pySlice [[(1:ℚ)]] cfgTiny.burn_in cfgTiny.skip).length =
      (pySlice [(1:ℚ)] cfgTiny.burn_in cfgTiny.skip).length ∧
    (pySlice [(1:ℚ)] cfgTiny.burn_in cfgTiny.skip).length =
      (pySlice ([1] : List Nat) cfgTiny.burn_in cfgTiny.skip).length ∧
    ∀ f : Nat,
      (pySlice [[(0:ℚ)]] cfgTiny.burn_in cfgTiny.skip)[f]? =
        [[(0:ℚ)]][cfgTiny.burn_in + f * cfgTiny.skip]? ∧
      (pySlice [[(1:ℚ)]] cfgTiny.burn_in cfgTiny.skip)[f]? =
        [[(1:ℚ)]][cfgTiny.burn_in + f * cfgTiny.skip]? ∧
      (pySlice [(1:ℚ)] cfgTiny.burn_in cfgTiny.skip)[f]? =
        [(1:ℚ)][cfgTiny.burn_in + f * cfgTiny.skip]? ∧
      (pySlice ([1] : List Nat) cfgTiny.burn_in cfgTiny.skip)[f]? =
        ([1] : List Nat)[cfgTiny.burn_in + f * cfgTiny.skip]?) :=
  by
  have hrun : run_lorenz96_truth (init_X cfgTiny.K) (init_Y cfgTiny.K cfgTiny.J)
      cfgTiny.h cfgTiny.F cfgTiny.b cfgTiny.c cfgTiny.time_step cfgTiny.num_steps =
        Except.ok ([[(0:ℚ)]], [[(1:ℚ)]], [(1:ℚ)], [1]) := by
    unfold run_lorenz96_truth
    rw [if_neg (by decide)]
    norm_num [cfgTiny, integrateAux, eulerStep, dXdt, dYdt, getc, init_X, init_Y,
      List.range_succ, List.getD]
  exact ⟨by decide, hrun,
    c10_alignment cfgTiny [[(0:ℚ)]] [[(1:ℚ)]] [(1:ℚ)] [1] (by decide) hrun⟩

/-! ## The experiment driver (main, source lines 62-84)

`main` is modelled by the sequence of pipeline stages it performs and
by the reload branch over an abstract file system holding the
previously persisted flat feature file. -/

/-- One row of a flat table: a value for each column name. -/
structure DataFrame where
  rows : List (String → ℚ)

/-- The pipeline stages the driver can perform, in the order the
source calls them. -/
inductive Event where
  | runIntegrator
  | buildFeatures
  | persistRawTrajectory
  | persistFlatTable
  | loadFlatTable
  | trainGan
deriving DecidableEq

/-- The file system as seen by the driver: the contents of
`output_csv_file`, when that file exists. -/
structure FileSystem where
  flatFeatureFile : Option DataFrame

/-- Modelled from the spec: `pd.read_csv` on the persisted flat
feature file (an external library call) either yields the stored table
or fails with IOFailure when the file is missing or unreadable. -/
def read_csv (fs : FileSystem) : Except PipelineError DataFrame :=
  match fs.flatFeatureFile with
  | some df => Except.ok df
  | none => Except.error PipelineError.ioFailure

/-- The stage sequence of `main` (source lines 71-83): with the reload
flag, read the csv (propagating its failure, there is no fallback) and
train; otherwise `generate_lorenz_data` (75), `process_lorenz_data`
(76), `save_lorenz_output` (80), `combined_data.to_csv` (81) and then
training (83). -/
def mainTrace (reloadFlag : Bool) (fs : FileSystem) : Except PipelineError (List Event) :=
  if reloadFlag then
    match read_csv fs with
    | Except.error e => Except.error e
    | Except.ok _ => Except.ok [Event.loadFlatTable, Event.trainGan]
  else
    Except.ok [Event.runIntegrator, Event.buildFeatures, Event.persistRawTrajectory,
               Event.persistFlatTable, Event.trainGan]

/-- C2 counterexample: in the non-reload path the driver builds the
flat feature table before persisting the raw trajectory, so the
claimed order (raw trajectory persisted before feature building) is
not the one the code performs. -/
theorem c2_counterexample :
    mainTrace false (FileSystem.mk none) =
      Except.ok [Event.runIntegrator, Event.buildFeatures, Event.persistRawTrajectory,
                 Event.persistFlatTable, Event.trainGan] ∧
    mainTrace false (FileSystem.mk none) ≠
      Except.ok [Event.runIntegrator, Event.persistRawTrajectory, Event.buildFeatures,
                 Event.persistFlatTable, Event.trainGan] := by
  exact ⟨rfl, by decide⟩

/-- C2 (amended): in the non-reload path the driver runs the
integrator, then builds the flat feature table, then persists the raw
trajectory, then persists the flat feature file (and then trains);
the raw trajectory is persisted after feature building but before the
flat file. -/
theorem c2_stage_order (fs : FileSystem) :
    mainTrace false fs =
      Except.ok [Event.runIntegrator, Event.buildFeatures, Event.persistRawTrajectory,
                 Event.persistFlatTable, Event.trainGan] := rfl

/-- C3: with the reload flag the driver performs no simulation and no
feature building; it loads the persisted flat feature file, and a
failing load is a hard error, never a silent regeneration. -/
theorem c3_reload_hard_error (fs : FileSystem) :
    (fs.flatFeatureFile = none → mainTrace true fs = Except.error PipelineError.ioFailure) ∧
    (∀ df, fs.flatFeatureFile = some df →
      mainTrace true fs = Except.ok [Event.loadFlatTable, Event.trainGan]) ∧
    (∀ tr, mainTrace true fs = Except.ok tr →
      Event.runIntegrator ∉ tr ∧ Event.buildFeatures ∉ tr ∧ Event.loadFlatTable ∈ tr) := by
  refine ⟨?_, ?_, ?_⟩
  · intro h
    simp [mainTrace, read_csv, h]
  · intro df h
    simp [mainTrace, read_csv, h]
  · intro tr h
    cases hf : fs.flatFeatureFile with
    | none => simp [mainTrace, read_csv, hf] at h
    | some df =>
      simp [mainTrace, read_csv, hf] at h
      rw [← h]
      exact ⟨by decide, by decide, by decide⟩

/-- Witness for C3: an absent file is a hard IOFailure, a present file
is loaded. -/
theorem c3_reload_hard_error_witness :
    mainTrace true (FileSystem.mk none) = Except.error PipelineError.ioFailure ∧
    mainTrace true (FileSystem.mk (some (DataFrame.mk []))) =
      Except.ok [Event.loadFlatTable, Event.trainGan] :=
  ⟨(c3_reload_hard_error (FileSystem.mk none)).1 rfl,
   (c3_reload_hard_error (FileSystem.mk (some (DataFrame.mk [])))).2.1 (DataFrame.mk []) rfl⟩

/-! ## The training-stage data handling (train_lorenz_gan, source lines 108-156) -/

/-- An array of shape `(rows, channels)`; the channel count is kept
explicitly, as a numpy shape would, so it survives an empty row list. -/
structure NArray where
  nCh : Nat
  rows : List (List ℚ)

/-- `combined_data[cols].values`: select the named columns of every row,
in the given column order. -/
def selectCols (df : DataFrame) (cols : List String) : NArray :=
  NArray.mk cols.length (df.rows.map (fun r => cols.map r))

/-- Python `str.lower()`. -/
def pyLower (s : String) : String := String.mk (s.data.map Char.toLower)

/-- The conditioning column names of `train_lorenz_gan` (source lines
119-125): `X_t` for lag 0 and `X_t-{t}` for lag `t >= 1`, in that
order. -/
def x_cols (num_cond_inputs : Nat) : List String :=
  (List.range num_cond_inputs).map (fun t => if t = 0 then ("X_t") else ("X_t-" ++ toString t))

/-- The target column names of `train_lorenz_gan` (source line 127):
`Y_0 .. Y_{J-1}`. -/
def y_cols (J : Nat) : List String :=
  (List.range J).map (fun y => ("Y_" ++ toString y))

/-- `X_series` of `train_lorenz_gan` (source line 126); the trailing
`expand_dims` axis of length one is dropped, so channels are the lags. -/
def x_series (df : DataFrame) (nIn : Nat) : NArray := selectCols df (x_cols nIn)

/-- `Y_series` of `train_lorenz_gan` (source lines 127-128); channels
are the `J` fast-variable columns. -/
def y_series (df : DataFrame) (J : Nat) : NArray := selectCols df (y_cols J)

/-- numpy `mean(axis=1)` over a `(rows, channels)` array followed by
`expand_dims`: one channel holding each row's arithmetic mean. -/
def npMeanAxis1 (a : NArray) : NArray :=
  NArray.mk 1 (a.rows.map (fun r => [r.sum / (r.length : ℚ)]))

/-- The Y-side array handed to the normalizer by `train_lorenz_gan`
(source lines 130-133): the per-row mean of `Y_series` when the output
mode lower-cases to `"mean"`, otherwise `Y_series` itself. -/
def yTarget (df : DataFrame) (J : Nat) (mode : String) : NArray :=
  if pyLower mode = "mean" then npMeanAxis1 (y_series df J) else y_series df J

theorem yTarget_sample (df : DataFrame) (J : Nat) :
    yTarget df J "sample" = y_series df J := by
  unfold yTarget
  rw [if_neg (by decide)]

theorem yTarget_mean (df : DataFrame) (J : Nat) :
    yTarget df J "mean" = npMeanAxis1 (y_series df J) := by
  unfold yTarget
  rw [if_pos (by decide)]

/-- One row of a persisted scaling table.  The standard deviation of a
channel is carried as its square (`sdsq`), since an exact square root
leaves the rationals; no claim under verification observes the numeric
scaling values, only the per-channel row structure. -/
structure ChannelScale where
  mean : ℚ
  sdsq : ℚ

/-- Modelled from the spec: `normalize_data` from `lorenz_gan.gan`
(not under the verified sources).  Per-channel statistics pooled over
the rows; returns the centered array (row and channel counts
preserved) together with the scaling table holding one entry per
channel, in channel order. -/
def normalize_data (a : NArray) : NArray × List ChannelScale :=
  let col := fun j => a.rows.map (fun q => q.getD j 0)
  let mu := fun j => (col j).sum / ((a.rows.length : Nat) : ℚ)
  let sdsq := fun j => ((col j).map (fun x => (x - mu j) ^ 2)).sum / ((a.rows.length : Nat) : ℚ)
  (NArray.mk a.nCh (a.rows.map (fun r => (List.range a.nCh).map (fun j => r.getD j 0 - mu j))),
   (List.range a.nCh).map (fun j => ChannelScale.mk (mu j) (sdsq j)))

/-- A persisted scaling-table file: the label of the index column, the
value headers, and one body row per channel carrying the channel index. -/
structure ScalingCsv where
  indexLabel : String
  header : List String
  body : List (Nat × ChannelScale)

/-- `scaling_values.to_csv(path, index_label="Channel")` (source lines
134-139): the index column is labeled `Channel` and numbers the
channels `0, 1, ...` in table order. -/
def scaling_to_csv (t : List ChannelScale) : ScalingCsv :=
  ⟨"Channel", ["mean", "std"], (List.range t.length).zip t⟩

/-- The persisted X-side scaling file of `train_lorenz_gan`. -/
def xScalingCsv (df : DataFrame) (nIn : Nat) : ScalingCsv :=
  scaling_to_csv (normalize_data (x_series df nIn)).2

/-- The persisted Y-side scaling file of `train_lorenz_gan`. -/
def yScalingCsv (df : DataFrame) (J : Nat) (mode : String) : ScalingCsv :=
  scaling_to_csv (normalize_data (yTarget df J mode)).2

/-- The batch trim of `train_lorenz_gan` (source lines 140 and
150-152): `trim = X_norm.shape[0] % batch_size`, and when `trim > 0`
both arrays lose their last `trim` rows (`arr[:-trim]`). -/
def trimToBatch (Xn : List α) (Yn : List β) (batch_size : Nat) : List α × List β :=
  if 0 < Xn.length % batch_size then
    (Xn.take (Xn.length - Xn.length % batch_size),
     Yn.take (Yn.length - Xn.length % batch_size))
  else (Xn, Yn)

/-- C4: the batch trim drops only tail rows: with `N` input rows and
batch size `B >= 1` both arrays end up with exactly `N - N mod B` rows
(a multiple of `B`), equal to the unchanged first `N - N mod B` rows in
order, and nothing is dropped when `B` divides `N`. -/
theorem c4_batch_trim (Xn Yn : List (List ℚ)) (B N : Nat)
    (hB : 1 ≤ B) (hX : Xn.length = N) (hY : Yn.length = N) :
    (trimToBatch Xn Yn B).1.length = N - N % B ∧
    (trimToBatch Xn Yn B).2.length = N - N % B ∧
    (N - N % B) % B = 0 ∧
    (trimToBatch Xn Yn B).1 = Xn.take (N - N % B) ∧
    (trimToBatch Xn Yn B).2 = Yn.take (N - N % B) ∧
    (N % B = 0 → (trimToBatch Xn Yn B).1 = Xn ∧ (trimToBatch Xn Yn B).2 = Yn) := by
  subst hX
  have hmod0 : (Xn.length - Xn.length % B) % B = 0 := by
    have hdm := Nat.div_add_mod Xn.length B
    have heq : Xn.length - Xn.length % B = B * (Xn.length / B) := by omega
    rw [heq, Nat.mul_mod_right]
  have hmodle : Xn.length % B ≤ Xn.length := Nat.mod_le _ _
  unfold trimToBatch
  by_cases h : 0 < Xn.length % B
  · rw [if_pos h]
    refine ⟨?_, ?_, hmod0, rfl, by rw [hY], ?_⟩
    · simp only [List.length_take]
      omega
    · simp only [List.length_take, hY]
      omega
    · intro h0
      omega
  · rw [if_neg h]
    have h0 : Xn.length % B = 0 := by omega
    refine ⟨by simp [h0], by simp [h0, hY], hmod0, ?_, ?_, fun _ => ⟨rfl, rfl⟩⟩
    · rw [h0, Nat.sub_zero, List.take_length]
    · rw [h0, Nat.sub_zero, ← hY, List.take_length]

/-- Witness for C4 with three rows and batch size two: one tail row is
dropped from each array. -/
theorem c4_batch_trim_witness :
    ((1:Nat) ≤ 2 ∧ ([[(1:ℚ)], [2], [3]] : List (List ℚ)).length = 3 ∧
      ([[(4:ℚ)], [5], [6]] : List (List ℚ)).length = 3) ∧
    ((trimToBatch ([[(1:ℚ)], [2], [3]] : List (List ℚ)) ([[(4:ℚ)], [5], [6]] : List (List ℚ)) 2).1.length = 3 - 3 % 2 ∧
    (trimToBatch ([[(1:ℚ)], [2], [3]] : List (List ℚ)) ([[(4:ℚ)], [5], [6]] : List (List ℚ)) 2).2.length = 3 - 3 % 2 ∧
    (3 - 3 % 2) % 2 = 0 ∧
    (trimToBatch ([[(1:ℚ)], [2], [3]] : List (List ℚ)) ([[(4:ℚ)], [5], [6]] : List (List ℚ)) 2).1 =
      ([[(1:ℚ)], [2], [3]] : List (List ℚ)).take (3 - 3 % 2) ∧
    (trimToBatch ([[(1:ℚ)], [2], [3]] : List (List ℚ)) ([[(4:ℚ)], [5], [6]] : List (List ℚ)) 2).2 =
      ([[(4:ℚ)], [5], [6]] : List (List ℚ)).take (3 - 3 % 2) ∧
    (3 % 2 = 0 →
      (trimToBatch ([[(1:ℚ)], [2], [3]] : List (List ℚ)) ([[(4:ℚ)], [5], [6]] : List (List ℚ)) 2).1 =
        ([[(1:ℚ)], [2], [3]] : List (List ℚ)) ∧
      (trimToBatch ([[(1:ℚ)], [2], [3]] : List (List ℚ)) ([[(4:ℚ)], [5], [6]] : List (List ℚ)) 2).2 =
        ([[(4:ℚ)], [5], [6]] : List (List ℚ)))) :=
  ⟨⟨by decide, by decide, by decide⟩,
   c4_batch_trim [[1], [2], [3]] [[4], [5], [6]] 2 3 (by decide) (by decide) (by decide)⟩

/-- C5: in mean output mode the single-channel target of every table
row is the arithmetic mean of the `J` fast-variable values that sample
mode carries verbatim for that row. -/
theorem c5_mean_target (df : DataFrame) (J f : Nat) (row : List ℚ) (hJ : 1 ≤ J)
    (hrow : (yTarget df J "sample").rows[f]? = some row) :
    (yTarget df J "mean").rows[f]? = some [row.sum / ((J : Nat) : ℚ)] := by
  rw [yTarget_sample] at hrow
  have hlen : row.length = J := by
    unfold y_series selectCols at hrow
    simp only [List.getElem?_map] at hrow
    cases hdr : df.rows[f]? with
    | none => rw [hdr] at hrow; simp at hrow
    | some r =>
      rw [hdr] at hrow
      simp only [Option.map_some', Option.some.injEq] at hrow
      rw [← hrow]
      simp [y_cols]
  rw [yTarget_mean]
  unfold npMeanAxis1
  simp only [List.getElem?_map]
  rw [hrow]
  simp only [Option.map_some', Option.some.injEq]
  rw [hlen]

/-- A one-row table with `Y_0 = 2` and `Y_1 = 4`. -/
def dfPair : DataFrame :=
  DataFrame.mk [fun cn => if cn = "Y_0" then 2 else if cn = "Y_1" then 4 else 0]

/-- Witness for C5: the mean-mode target of the row `(2, 4)` is their
arithmetic mean. -/
theorem c5_mean_target_witness :
    ((1:Nat) ≤ 2 ∧ (yTarget dfPair 2 "sample").rows[0]? = some [(2:ℚ), 4]) ∧
    (yTarget dfPair 2 "mean").rows[0]? =
      some [([(2:ℚ), 4] : List ℚ).sum / (((2:Nat) : Nat) : ℚ)] :=
  ⟨⟨by decide, by decide⟩, c5_mean_target dfPair 2 0 [2, 4] (by decide) (by decide)⟩

/-- C7: conditioning columns are named and ordered
`X_t, X_t-1, ..., X_t-(num_cond_inputs-1)`, targets are `Y_0..Y_{J-1}`,
and both persisted scaling files carry one body row per channel under
the index label `Channel`; all of these depend only on the
configuration, hence are identical across runs. -/
theorem c7_naming (df : DataFrame) (nIn J : Nat) (hIn : 1 ≤ nIn) :
    (x_cols nIn).length = nIn ∧
    (x_cols nIn)[0]? = some ("X_t") ∧
    (∀ t, 1 ≤ t → t < nIn → (x_cols nIn)[t]? = some ("X_t-" ++ toString t)) ∧
    (y_cols J).length = J ∧
    (∀ y, y < J → (y_cols J)[y]? = some ("Y_" ++ toString y)) ∧
    (xScalingCsv df nIn).indexLabel = "Channel" ∧
    (xScalingCsv df nIn).body.length = nIn ∧
    (yScalingCsv df J "sample").indexLabel = "Channel" ∧
    (yScalingCsv df J "sample").body.length = J ∧
    (yScalingCsv df J "mean").indexLabel = "Channel" ∧
    (yScalingCsv df J "mean").body.length = 1 := by
  refine ⟨by simp [x_cols], ?_, ?_, by simp [y_cols], ?_, rfl, ?_, rfl, ?_, rfl, ?_⟩
  · have h0 : 0 < nIn := hIn
    simp [x_cols, List.getElem?_range, h0]
  · intro t h1 h2
    simp only [x_cols, List.getElem?_map, List.getElem?_range, h2, if_true,
      Option.map_some', Option.some.injEq]
    rw [if_neg (by omega)]
  · intro y hy
    simp [y_cols, List.getElem?_range, hy]
  · simp [xScalingCsv, scaling_to_csv, normalize_data, x_series, selectCols, x_cols,
      List.length_zip]
  · rw [yScalingCsv, yTarget_sample]
    simp [scaling_to_csv, normalize_data, y_series, selectCols, y_cols, List.length_zip]
  · rw [yScalingCsv, yTarget_mean]
    simp [scaling_to_csv, normalize_data, npMeanAxis1, List.length_zip]

/-- Witness for C7 at `num_cond_inputs = 3`, `J = 2` on the empty table. -/
theorem c7_naming_witness :
    ((1:Nat) ≤ 3) ∧
    ((x_cols 3).length = 3 ∧
    (x_cols 3)[0]? = some ("X_t") ∧
    (∀ t, 1 ≤ t → t < 3 → (x_cols 3)[t]? = some ("X_t-" ++ toString t)) ∧
    (y_cols 2).length = 2 ∧
    (∀ y, y < 2 → (y_cols 2)[y]? = some ("Y_" ++ toString y)) ∧
    (xScalingCsv (DataFrame.mk []) 3).indexLabel = "Channel" ∧
    (xScalingCsv (DataFrame.mk []) 3).body.length = 3 ∧
    (yScalingCsv (DataFrame.mk []) 2 "sample").indexLabel = "Channel" ∧
    (yScalingCsv (DataFrame.mk []) 2 "sample").body.length = 2 ∧
    (yScalingCsv (DataFrame.mk []) 2 "mean").indexLabel = "Channel" ∧
    (yScalingCsv (DataFrame.mk []) 2 "mean").body.length = 1) :=
  ⟨by decide, c7_naming (DataFrame.mk []) 3 2 (by decide)⟩

end LorenzGan
